import Mathlib

/-!
Verification of the pipeline orchestration core
(`crates/media/src/pipeline/builder.rs`).

The Rust code is shallowly embedded: each stage thread and each channel is
replaced by an explicit description of its eventual behaviour (an
environment parameter), and the builder operations become pure functions on
an explicit builder state.  Blocking waits and spawns performed by `build()`
are additionally recorded in an event trace so that ordering claims can be
stated.
-/

deriving instance DecidableEq for Except

namespace Cap

/-- Single-quote character, used to assemble the message strings of the
source verbatim. -/
def sq : String := String.singleton (Char.ofNat 39)

/-- Modelled from the spec: the error enum `MediaError` is declared outside
this crate (only used here).  The spec names exactly two error kinds on the
pipeline-level error surface: `EmptyPipeline` (no stages registered) and
`TaskLaunch(stage_name, reason)`; `build` in the source constructs
`TaskLaunch` with a single formatted string. -/
inductive MediaError where
  | EmptyPipeline : MediaError
  | TaskLaunch : String → MediaError
deriving DecidableEq, Repr

/-- Eventual behaviour of one stage's readiness channel
(`Receiver<Result<(), MediaError>>`), as observed by the 5-second
`tokio::time::timeout(..., ready_signal.recv_async())` in `build`. -/
inductive ReadyOutcome where
  | timeout : ReadyOutcome
  | closed : ReadyOutcome
  | value : Except MediaError Unit → ReadyOutcome
deriving DecidableEq, Repr

/-- One registration held in the builder's `IndexMap<String, Task>`:
the stage name together with the environment's description of the stage
(its readiness behaviour and an abstract thread-handle identifier). -/
structure Task where
  name : String
  ready : ReadyOutcome
  handle : Nat
deriving DecidableEq, Repr

/-- The builder state: the Control Broadcast (modelled from the spec as the
list of names under which `add_listener` was called, in call order, since
`control.rs` is outside src) and the ordered task registry. -/
structure PipelineBuilder where
  control : List String
  tasks : List Task
deriving DecidableEq, Repr

/-- Corresponds to `PipelineBuilder::new(clock)`: empty registry, default
(empty) control broadcast. -/
def PipelineBuilder.new : PipelineBuilder :=
  { control := [], tasks := [] }

/-- Panic message of `spawn_task` on a duplicate name, verbatim from the
source. -/
def duplicateMsg (name : String) : String :=
  "A task with the name " ++ name ++ " has already been added to the pipeline"

/-- Whether a task with this name is already registered
(`self.tasks.contains_key(&name)`). -/
def PipelineBuilder.hasTask (b : PipelineBuilder) (name : String) : Bool :=
  b.tasks.any (fun t => t.name = name)

/-- Corresponds to `PipelineBuilder::spawn_task`: panics (modelled as
`Except.error` carrying the panic message) when the name is already
registered, otherwise spawns the stage thread and inserts the registration.
The stage's eventual readiness behaviour and thread handle are environment
parameters.  Note that `spawn_task` itself does not touch the control
broadcast. -/
def PipelineBuilder.spawn_task (b : PipelineBuilder) (name : String)
    (ready : ReadyOutcome) (handle : Nat) : Except String PipelineBuilder :=
  if b.hasTask name then
    .error (duplicateMsg name)
  else
    .ok { b with tasks := b.tasks ++ [⟨name, ready, handle⟩] }

/-- Corresponds to `ControlBroadcast::add_listener` (modelled from the spec:
`control.rs` is outside src; the spec describes an append-only registry of
one listener handle per call, keyed by the given name). -/
def PipelineBuilder.add_listener (b : PipelineBuilder) (name : String) :
    PipelineBuilder :=
  { b with control := b.control ++ [name] }

/-- Corresponds to `PipelineBuilder::spawn_source`: derives a clock view,
adds a control listener under the name, then registers through
`spawn_task`. -/
def PipelineBuilder.spawn_source (b : PipelineBuilder) (name : String)
    (ready : ReadyOutcome) (handle : Nat) : Except String PipelineBuilder :=
  (b.add_listener name).spawn_task name ready handle

/-- The fluent chaining helper returned by `source`: the builder plus the
receiving end of the bounded queue, modelled by its capacity. -/
structure PipelinePathBuilder where
  pipeline : PipelineBuilder
  next_input : Nat
deriving DecidableEq, Repr

/-- Corresponds to `PipelineBuilder::source`: creates the bounded output
queue (`flume::bounded(task.queue_size())`), adds the control listener,
registers through `spawn_task`, and returns the path builder. -/
def PipelineBuilder.source (b : PipelineBuilder) (name : String)
    (queueSize : Nat) (ready : ReadyOutcome) (handle : Nat) :
    Except String PipelinePathBuilder :=
  ((b.add_listener name).spawn_task name ready handle).map
    (fun pb => { pipeline := pb, next_input := queueSize })

/-- Message of the readiness-timeout branch of `build`, verbatim:
`format!("task timed out: '{name}'")`. -/
def timedOutMsg (name : String) : String :=
  "task timed out: " ++ sq ++ name ++ sq

/-- Display text of `flume::RecvError` (external crate), produced when the
readiness channel is closed without a value. -/
def recvErrorMsg : String := "receiving on an empty and closed channel"

/-- Message of the closed-readiness-channel branch of `build`, verbatim:
`format!("{name} build / {e}")` with `e` the `RecvError`. -/
def closedMsg (name : String) : String :=
  name ++ " build / " ++ recvErrorMsg

/-- One iteration of the readiness loop of `build`: the
`timeout(...).await.map_err(...)?.map_err(...)??` chain.  A timeout and a
closed channel are wrapped into `TaskLaunch`; an explicit failure payload
sent by the stage is propagated unmodified by the final `?`. -/
def awaitReady (name : String) (r : ReadyOutcome) : Except MediaError Unit :=
  match r with
  | .timeout => .error (.TaskLaunch (timedOutMsg name))
  | .closed => .error (.TaskLaunch (closedMsg name))
  | .value (.error e) => .error e
  | .value (.ok _) => .ok ()

/-- The readiness loop of `build`: for each registration in registry order,
await its readiness signal, short-circuiting on the first failure; on
success accumulate `task_handles` entries `(name, join_handle)` in the same
order. -/
def buildLoop : List Task → Except MediaError (List (String × Nat))
  | [] => .ok []
  | t :: ts =>
      match awaitReady t.name t.ready with
      | .error e => .error e
      | .ok _ =>
          match buildLoop ts with
          | .error e => .error e
          | .ok rest => .ok ((t.name, t.handle) :: rest)

/-- The built artifact (`Pipeline`): control broadcast, the
`task_handles` map (name-keyed, insertion order) and the shutdown flag.
The clock is carried through unchanged and is irrelevant to the claims, so
it is omitted. -/
structure Pipeline where
  control : List String
  task_handles : List (String × Nat)
  is_shutdown : Bool
deriving DecidableEq, Repr

/-- What a successful `build` hands back: the pipeline plus the completion
future (`done_rx`), whose state at return time is `none` (pending) —
the only sender is the supervisor spawned by `tokio::spawn`, which has not
sent at the time `build` returns. -/
structure BuildOk where
  pipeline : Pipeline
  done_rx : Option (Except String Unit)
deriving DecidableEq, Repr

/-- Corresponds to `PipelineBuilder::build` (its synchronous result):
`EmptyPipeline` on an empty registry, then the readiness loop, then the
assembled `Pipeline` with `is_shutdown: false` and the pending completion
future. -/
def PipelineBuilder.build (b : PipelineBuilder) : Except MediaError BuildOk :=
  if b.tasks.isEmpty then
    .error .EmptyPipeline
  else
    (buildLoop b.tasks).map (fun handles =>
      { pipeline :=
          { control := b.control
            task_handles := handles
            is_shutdown := false }
        done_rx := none })

/-- Events of the suspension points and the spawn performed by `build`,
used to state ordering claims.  `waitReady` records the stage name and the
timeout bound in seconds (`Duration::from_secs(5)`); `graceSleepMs` records
the fixed sleep (`Duration::from_millis(10)`); `spawnSupervisor` records the
single `tokio::spawn`. -/
inductive BuildEvent where
  | waitReady : String → Nat → BuildEvent
  | graceSleepMs : Nat → BuildEvent
  | spawnSupervisor : BuildEvent
deriving DecidableEq, Repr

/-- Trace of the readiness loop: a wait event per registration, in registry
order, stopping right after the first failing wait. -/
def buildLoopTrace : List Task → List BuildEvent
  | [] => []
  | t :: ts =>
      .waitReady t.name 5 ::
        (if (awaitReady t.name t.ready).isOk then buildLoopTrace ts else [])

/-- Full event trace of `build`: nothing on the empty registry, otherwise
the readiness waits, and — only when all stages became ready — the grace
sleep followed by spawning the single supervisor. -/
def buildTrace (b : PipelineBuilder) : List BuildEvent :=
  if b.tasks.isEmpty then []
  else
    buildLoopTrace b.tasks ++
      (if (buildLoop b.tasks).isOk then
        [.graceSleepMs 10, .spawnSupervisor] else [])

/-- Eventual behaviour of one stage's completion channel
(`oneshot::Receiver<Result<(), String>>`) as seen by `select_all`:
either the channel closed without a value (`Err(RecvError)`) or it
delivered the stage's reported outcome. -/
inductive DoneSignal where
  | closed : DoneSignal
  | value : Except String Unit → DoneSignal
deriving DecidableEq, Repr

/-- Message built by the supervisor for an explicit stage failure,
verbatim: `format!("Task '{task_name}' failed: {error}")`. -/
def taskFailedMsg (name error : String) : String :=
  "Task " ++ sq ++ name ++ sq ++ " failed: " ++ error

/-- Message built by the supervisor for a completion channel that closed
without a value, verbatim:
`format!("Task '{task_name}' failed for unknown reason")`. -/
def taskUnknownMsg (name : String) : String :=
  "Task " ++ sq ++ name ++ sq ++ " failed for unknown reason"

/-- The match in the supervisor body converting the first-resolving
completion signal into the pipeline outcome. -/
def superviseFirst (name : String) (sig : DoneSignal) : Except String Unit :=
  match sig with
  | .value (.error e) => .error (taskFailedMsg name e)
  | .closed => .error (taskUnknownMsg name)
  | .value (.ok _) => .ok ()

/-- Names of the `task_handles` keys, in order — the `task_names` vector
captured by the supervisor. -/
def taskNames (out : BuildOk) : List String :=
  out.pipeline.task_handles.map Prod.fst

/-- The sends performed on the single-shot completion channel by the
supervisor spawned in `build`, given the names vector, the eventual values
of all stages' completion signals, and the index `i` that `select_all`
resolved first: one unconditional `done_tx.send(result)`. -/
def supervisorSends (names : List String) (signals : List DoneSignal)
    (i : Nat) : List (Except String Unit) :=
  [superviseFirst (names.getD i "") (signals.getD i .closed)]

/-- Payload of a Rust panic as inspected by the `downcast_ref` chain in
`spawn_task`: a `&'static str`, a `String`, or anything else. -/
inductive PanicPayload where
  | staticStr : String → PanicPayload
  | stringVal : String → PanicPayload
  | other : PanicPayload
deriving DecidableEq, Repr

/-- Behaviour of the `launch` closure run inside `catch_unwind`: it either
returns a `Result<(), String>` or panics with some payload. -/
inductive LaunchBehavior where
  | returns : Except String Unit → LaunchBehavior
  | panics : PanicPayload → LaunchBehavior
deriving DecidableEq, Repr

/-- The `map_err` closure of `spawn_task` synthesizing a message from a
panic payload, verbatim from the source. -/
def panicMessage : PanicPayload → String
  | .staticStr s => "Panicked: " ++ s
  | .stringVal s => "Panicked: " ++ s
  | .other => "Panicked: Unknown error"

/-- Model of `std::panic::catch_unwind` applied to the `launch` closure:
a normal return is `Ok`, a panic is intercepted and surfaces as `Err`
carrying the payload. -/
def catch_unwind (b : LaunchBehavior) :
    Except PanicPayload (Except String Unit) :=
  match b with
  | .returns r => .ok r
  | .panics p => .error p

/-- What the stage-runner thread does besides running `launch`: the list of
values sent on the stage's completion channel (`done_tx`), and the panic, if
any, escaping the thread body. -/
structure RunnerOutcome where
  sends : List (Except String Unit)
  escaped : Option PanicPayload
deriving DecidableEq, Repr

/-- The thread body spawned by `spawn_task`:
`catch_unwind(launch).map_err(panicMessage).and_then(|v| v)` followed by a
single `done_tx.send(result)`.  No panic escapes: `catch_unwind` intercepts
it and the rest of the body is straight-line code. -/
def runnerBody (b : LaunchBehavior) : RunnerOutcome :=
  let result : Except String Unit :=
    match (catch_unwind b).mapError panicMessage with
    | .ok v => v
    | .error m => .error m
  { sends := [result], escaped := none }

/-- Discriminator for the `TaskLaunch` error kind. -/
def MediaError.isTaskLaunch : MediaError → Bool
  | .TaskLaunch _ => true
  | .EmptyPipeline => false

/-- Builder with the given registry and no control listeners, used to state
properties of `build` over an arbitrary registry. -/
def withTasks (ts : List Task) : PipelineBuilder :=
  { control := [], tasks := ts }

/-- Predicate for a wait-for-readiness event. -/
def BuildEvent.isWait : BuildEvent → Bool
  | .waitReady _ _ => true
  | _ => false

/-- Builder states reachable from `new` through the two source-registration
operations (`source` and `spawn_source`) alone. -/
inductive SourceReachable : PipelineBuilder → Prop
  | new : SourceReachable PipelineBuilder.new
  | spawn_source (b b2 : PipelineBuilder) (name : String) (r : ReadyOutcome)
      (h : Nat) : SourceReachable b → b.spawn_source name r h = .ok b2 →
      SourceReachable b2
  | source (b : PipelineBuilder) (pb : PipelinePathBuilder) (name : String)
      (q : Nat) (r : ReadyOutcome) (h : Nat) : SourceReachable b →
      b.source name q r h = .ok pb → SourceReachable pb.pipeline

theorem hasTask_eq_true_iff (b : PipelineBuilder) (name : String) :
    b.hasTask name = true ↔ name ∈ b.tasks.map Task.name := by
  simp only [PipelineBuilder.hasTask, List.any_eq_true, decide_eq_true_eq,
    List.mem_map]

theorem buildLoop_all_ok (ts : List Task)
    (h : ∀ t ∈ ts, t.ready = .value (.ok ())) :
    buildLoop ts = .ok (ts.map fun t => (t.name, t.handle)) := by
  induction ts with
  | nil => rfl
  | cons t ts ih =>
      have ht := h t (by simp)
      simp [buildLoop, ht, awaitReady, ih (fun x hx => h x (by simp [hx]))]

theorem buildLoop_ok_handles (ts : List Task) (hs : List (String × Nat))
    (h : buildLoop ts = .ok hs) :
    hs = ts.map fun t => (t.name, t.handle) := by
  induction ts generalizing hs with
  | nil => simpa [buildLoop] using h.symm
  | cons t ts ih =>
      cases hA : awaitReady t.name t.ready with
      | error e => simp [buildLoop, hA] at h
      | ok u =>
          cases hB : buildLoop ts with
          | error e => simp [buildLoop, hA, hB] at h
          | ok rest =>
              simp only [buildLoop, hA, hB, Except.ok.injEq] at h
              simp [← h, ih rest hB]

theorem buildLoop_append_ok (pre l : List Task)
    (h : ∀ t ∈ pre, t.ready = .value (.ok ())) :
    buildLoop (pre ++ l) =
      (buildLoop l).map
        (fun hs => (pre.map fun t => (t.name, t.handle)) ++ hs) := by
  induction pre with
  | nil =>
      cases hB : buildLoop l <;> simp [Except.map, hB]
  | cons t pre ih =>
      have ht := h t (by simp)
      have ih2 := ih (fun x hx => h x (by simp [hx]))
      cases hB : buildLoop l with
      | error e =>
          simp [buildLoop, ht, awaitReady, ih2, hB, Except.map]
      | ok hs =>
          simp [buildLoop, ht, awaitReady, ih2, hB, Except.map]

theorem buildLoopTrace_append_ok (pre l : List Task)
    (h : ∀ t ∈ pre, t.ready = .value (.ok ())) :
    buildLoopTrace (pre ++ l) =
      (pre.map fun t => BuildEvent.waitReady t.name 5) ++ buildLoopTrace l := by
  induction pre with
  | nil => simp
  | cons t pre ih =>
      have ht := h t (by simp)
      have ih2 := ih (fun x hx => h x (by simp [hx]))
      simp [buildLoopTrace, ht, awaitReady, ih2, Except.isOk, Except.toBool]

theorem buildLoopTrace_isPre (ts : List Task) :
    buildLoopTrace ts <+: ts.map fun t => BuildEvent.waitReady t.name 5 := by
  induction ts with
  | nil => exact List.nil_prefix
  | cons t ts ih =>
      by_cases hA : (awaitReady t.name t.ready).isOk = true
      · simpa [buildLoopTrace, hA, List.cons_prefix_cons] using ih
      · simp [buildLoopTrace, hA, List.cons_prefix_cons]

theorem buildLoop_isOk_trace (ts : List Task)
    (h : (buildLoop ts).isOk = true) :
    buildLoopTrace ts = ts.map fun t => BuildEvent.waitReady t.name 5 := by
  induction ts with
  | nil => rfl
  | cons t ts ih =>
      cases hA : awaitReady t.name t.ready with
      | error e => simp [buildLoop, hA, Except.isOk, Except.toBool] at h
      | ok u =>
          cases hB : buildLoop ts with
          | error e => simp [buildLoop, hA, hB, Except.isOk, Except.toBool] at h
          | ok rest =>
              simp [buildLoopTrace, hA, Except.isOk, Except.toBool,
                ih (by simp [Except.isOk, Except.toBool, hB])]

theorem supervisor_not_in_loopTrace (ts : List Task) :
    BuildEvent.spawnSupervisor ∉ buildLoopTrace ts := by
  induction ts with
  | nil => simp [buildLoopTrace]
  | cons t ts ih =>
      by_cases hA : (awaitReady t.name t.ready).isOk = true <;>
        simp [buildLoopTrace, hA, ih]

theorem build_ok_char (b : PipelineBuilder) (out : BuildOk)
    (h : b.build = .ok out) :
    out = { pipeline := { control := b.control
                          task_handles := b.tasks.map fun t => (t.name, t.handle)
                          is_shutdown := false }
            done_rx := none }
    ∧ (buildLoop b.tasks).isOk = true ∧ b.tasks ≠ [] := by
  by_cases he : b.tasks.isEmpty = true
  · simp [PipelineBuilder.build, he] at h
  · cases hB : buildLoop b.tasks with
    | error e => simp [PipelineBuilder.build, he, hB, Except.map] at h
    | ok hs =>
        simp only [PipelineBuilder.build, he, if_false, Bool.false_eq_true,
          hB, Except.map, Except.ok.injEq] at h
        refine ⟨?_, by simp [hB, Except.isOk, Except.toBool],
          by simpa [List.isEmpty_iff] using he⟩
        rw [← h, buildLoop_ok_handles b.tasks hs hB]

theorem spawn_source_ok_char (b b2 : PipelineBuilder) (name : String)
    (r : ReadyOutcome) (hd : Nat)
    (heq : b.spawn_source name r hd = .ok b2) :
    b.hasTask name = false
    ∧ b2 = { control := b.control ++ [name]
             tasks := b.tasks ++ [⟨name, r, hd⟩] } := by
  have hadd : (b.add_listener name).hasTask name = b.hasTask name := rfl
  simp only [PipelineBuilder.spawn_source, PipelineBuilder.spawn_task,
    hadd] at heq
  by_cases hT : b.hasTask name = true
  · simp [hT] at heq
  · simp only [hT, Bool.false_eq_true, if_false, Except.ok.injEq] at heq
    refine ⟨by simpa using hT, ?_⟩
    rw [← heq]
    rfl

theorem source_ok_char (b : PipelineBuilder) (pb : PipelinePathBuilder)
    (name : String) (q : Nat) (r : ReadyOutcome) (hd : Nat)
    (heq : b.source name q r hd = .ok pb) :
    b.hasTask name = false
    ∧ pb.pipeline = { control := b.control ++ [name]
                      tasks := b.tasks ++ [⟨name, r, hd⟩] }
    ∧ pb.next_input = q := by
  have hadd : (b.add_listener name).hasTask name = b.hasTask name := rfl
  simp only [PipelineBuilder.source, PipelineBuilder.spawn_task, hadd] at heq
  by_cases hT : b.hasTask name = true
  · simp [hT, Except.map] at heq
  · simp only [hT, Bool.false_eq_true, if_false, Except.map,
      Except.ok.injEq] at heq
    refine ⟨by simpa using hT, ?_, ?_⟩
    · rw [← heq]; rfl
    · rw [← heq]

theorem sourceReachable_control (b : PipelineBuilder)
    (h : SourceReachable b) :
    b.control = b.tasks.map Task.name ∧ (b.tasks.map Task.name).Nodup := by
  induction h with
  | new => exact ⟨rfl, List.nodup_nil⟩
  | spawn_source b b2 name r hd hrec heq ih =>
      obtain ⟨hT, rfl⟩ := spawn_source_ok_char b b2 name r hd heq
      obtain ⟨hc, hn⟩ := ih
      have hmem : name ∉ b.tasks.map Task.name := by
        intro hm
        rw [← hasTask_eq_true_iff] at hm
        simp [hm] at hT
      constructor
      · simp [hc]
      · simp [List.nodup_append, hn, hmem]
  | source b pb name q r hd hrec heq ih =>
      obtain ⟨hT, hpb, _⟩ := source_ok_char b pb name q r hd heq
      rw [hpb]
      obtain ⟨hc, hn⟩ := ih
      have hmem : name ∉ b.tasks.map Task.name := by
        intro hm
        rw [← hasTask_eq_true_iff] at hm
        simp [hm] at hT
      constructor
      · simp [hc]
      · simp [List.nodup_append, hn, hmem]

theorem name_infix_taskFailedMsg (name e : String) :
    name.data <:+: (taskFailedMsg name e).data := by
  refine ⟨("Task " ++ sq).data, (sq ++ " failed: " ++ e).data, ?_⟩
  simp [taskFailedMsg, List.append_assoc]

theorem name_infix_timedOutMsg (name : String) :
    name.data <:+: (timedOutMsg name).data := by
  refine ⟨("task timed out: " ++ sq).data, sq.data, ?_⟩
  simp [timedOutMsg, List.append_assoc]

theorem name_infix_closedMsg (name : String) :
    name.data <:+: (closedMsg name).data := by
  refine ⟨[], (" build / " ++ recvErrorMsg).data, ?_⟩
  simp [closedMsg, List.append_assoc]

/-- Sample builder used by the witnesses: two stages, both of which signal
readiness successfully, registered in order with control listeners (the
state produced by registering both through `spawn_source`). -/
def sampleOk : PipelineBuilder :=
  { control := ["alpha", "beta"]
    tasks := [⟨"alpha", .value (.ok ()), 0⟩, ⟨"beta", .value (.ok ()), 1⟩] }

/-- The built artifact of `sampleOk.build`. -/
def sampleOkOut : BuildOk :=
  { pipeline := { control := ["alpha", "beta"]
                  task_handles := [("alpha", 0), ("beta", 1)]
                  is_shutdown := false }
    done_rx := none }

/-- Claim C5: `build()` on a builder with zero registered stages always
returns the `EmptyPipeline` error, before spawning the supervisor and
before waiting on any signal (its event trace is empty). -/
theorem build_empty_fails (b : PipelineBuilder) (h : b.tasks = []) :
    b.build = .error .EmptyPipeline ∧ buildTrace b = [] := by
  constructor <;> simp [PipelineBuilder.build, buildTrace, h]

/-- Witness for C5 at the freshly created builder. -/
theorem build_empty_fails_witness :
    PipelineBuilder.new.build = .error .EmptyPipeline
    ∧ buildTrace PipelineBuilder.new = [] :=
  build_empty_fails PipelineBuilder.new rfl

/-- Claim C6: for every nonempty registry whose stages all deliver an `Ok`
readiness outcome within the timeout, `build` returns `Ok` with a pipeline
handle and a completion future that is still pending (`done_rx = none`) at
return time. -/
theorem build_all_ready_succeeds (b : PipelineBuilder) (hne : b.tasks ≠ [])
    (hok : ∀ t ∈ b.tasks, t.ready = .value (.ok ())) :
    b.build = .ok
      { pipeline := { control := b.control
                      task_handles := b.tasks.map fun t => (t.name, t.handle)
                      is_shutdown := false }
        done_rx := none } := by
  have hloop := buildLoop_all_ok b.tasks hok
  simp [PipelineBuilder.build, hloop, Except.map, hne]

/-- Witness for C6 at the two-stage sample builder. -/
theorem build_all_ready_succeeds_witness : sampleOk.build = .ok sampleOkOut :=
  build_all_ready_succeeds sampleOk (by decide) (by decide)

/-- Claim C7: registering a stage under a name already present in the task
registry panics immediately at registration time with the source's message,
through `spawn_task` and hence through `source` and `spawn_source`; a fresh
name does not hit the fatal branch. -/
theorem duplicate_name_rejected (b : PipelineBuilder) (dup fresh : String)
    (q hd : Nat) (r : ReadyOutcome)
    (hdup : b.hasTask dup = true) (hfresh : b.hasTask fresh = false) :
    b.spawn_task dup r hd = .error (duplicateMsg dup)
    ∧ b.spawn_source dup r hd = .error (duplicateMsg dup)
    ∧ b.source dup q r hd = .error (duplicateMsg dup)
    ∧ b.spawn_task fresh r hd
        = .ok { b with tasks := b.tasks ++ [⟨fresh, r, hd⟩] } := by
  have hadd : (b.add_listener dup).hasTask dup = b.hasTask dup := rfl
  refine ⟨?_, ?_, ?_, ?_⟩
  · simp [PipelineBuilder.spawn_task, hdup]
  · simp [PipelineBuilder.spawn_source, PipelineBuilder.spawn_task, hadd,
      hdup]
  · simp [PipelineBuilder.source, PipelineBuilder.spawn_task, hadd, hdup,
      Except.map]
  · simp [PipelineBuilder.spawn_task, hfresh]

/-- Witness for C7: in the sample builder, a second registration under the
taken name `alpha` panics in all three operations, and registration under
the fresh name `gamma` succeeds. -/
theorem duplicate_name_rejected_witness :
    sampleOk.spawn_task "alpha" (.value (.ok ())) 9
        = .error (duplicateMsg "alpha")
    ∧ sampleOk.spawn_source "alpha" (.value (.ok ())) 9
        = .error (duplicateMsg "alpha")
    ∧ sampleOk.source "alpha" 4 (.value (.ok ())) 9
        = .error (duplicateMsg "alpha")
    ∧ sampleOk.spawn_task "gamma" (.value (.ok ())) 9
        = .ok { sampleOk with
                tasks := sampleOk.tasks ++ [⟨"gamma", .value (.ok ()), 9⟩] } :=
  duplicate_name_rejected sampleOk "alpha" "gamma" 4 9 (.value (.ok ()))
    (by decide) (by decide)

/-- Claim C4: on the spec-modelled error enum (whose only kinds are
`EmptyPipeline` and `TaskLaunch`), every error value returned by `build` is
one of those two kinds. -/
theorem build_error_two_kinds (b : PipelineBuilder) (e : MediaError)
    (h : b.build = .error e) :
    e = .EmptyPipeline ∨ ∃ s, e = .TaskLaunch s := by
  cases e with
  | EmptyPipeline => exact Or.inl rfl
  | TaskLaunch s => exact Or.inr ⟨s, rfl⟩

/-- Witness for C4 at the empty builder, whose build fails with
`EmptyPipeline`. -/
theorem build_error_two_kinds_witness :
    MediaError.EmptyPipeline = .EmptyPipeline
    ∨ ∃ s, MediaError.EmptyPipeline = .TaskLaunch s :=
  build_error_two_kinds PipelineBuilder.new .EmptyPipeline (by decide)

theorem build_fail_at (pre rest : List Task) (t : Task) (err : MediaError)
    (hpre : ∀ x ∈ pre, x.ready = .value (.ok ()))
    (ht : awaitReady t.name t.ready = .error err) :
    (withTasks (pre ++ t :: rest)).build = .error err
    ∧ buildTrace (withTasks (pre ++ t :: rest))
        = (pre.map fun x => BuildEvent.waitReady x.name 5)
          ++ [BuildEvent.waitReady t.name 5] := by
  have hloop : buildLoop (pre ++ t :: rest) = .error err := by
    rw [buildLoop_append_ok pre (t :: rest) hpre]
    simp [buildLoop, ht, Except.map]
  have hloopTr : buildLoopTrace (pre ++ t :: rest)
      = (pre.map fun x => BuildEvent.waitReady x.name 5)
        ++ [BuildEvent.waitReady t.name 5] := by
    rw [buildLoopTrace_append_ok pre (t :: rest) hpre]
    simp [buildLoopTrace, ht, Except.isOk, Except.toBool]
  constructor
  · simp [PipelineBuilder.build, withTasks, hloop, Except.map]
  · simp [buildTrace, withTasks, hloop, hloopTr, Except.isOk, Except.toBool]

/-- Registry containing a single stage named `mystage` whose readiness
signal carries the explicit failure payload `EmptyPipeline`. -/
def payloadStage : PipelineBuilder :=
  { control := [], tasks := [⟨"mystage", .value (.error .EmptyPipeline), 7⟩] }

/-- Claim C3 counterexample: a stage that sends an explicit failure payload
on its Readiness Signal does not make `build` return a `TaskLaunch` error
naming the stage — the payload (`EmptyPipeline` here) is propagated
unmodified by the final `?` of the readiness chain, and it is not a
`TaskLaunch` error at all. -/
theorem build_explicit_payload_not_tasklaunch :
    payloadStage.build = .error .EmptyPipeline
    ∧ MediaError.EmptyPipeline.isTaskLaunch = false := by decide

/-- Claim C3 (amended): during `build()`, for each registration in turn, a
timeout on the Readiness Signal and a readiness channel closed before any
value was sent each cause `build()` to return a `TaskLaunch` error naming
the offending stage, while an explicit failure payload sent on the
Readiness Signal causes `build()` to return that payload itself,
unmodified; in every case `build()` returns on the first such failure
without waiting on the remaining stages' Readiness Signals (the trace ends
at the failing wait, for any continuation of the registry). -/
theorem build_readiness_failure_cases (pre rest : List Task) (name : String)
    (h1 h2 h3 : Nat) (e : MediaError)
    (hpre : ∀ t ∈ pre, t.ready = .value (.ok ())) :
    (withTasks (pre ++ ⟨name, .timeout, h1⟩ :: rest)).build
        = .error (.TaskLaunch (timedOutMsg name))
    ∧ name.data <:+: (timedOutMsg name).data
    ∧ (withTasks (pre ++ ⟨name, .closed, h2⟩ :: rest)).build
        = .error (.TaskLaunch (closedMsg name))
    ∧ name.data <:+: (closedMsg name).data
    ∧ (withTasks (pre ++ ⟨name, .value (.error e), h3⟩ :: rest)).build
        = .error e
    ∧ buildTrace (withTasks (pre ++ ⟨name, .timeout, h1⟩ :: rest))
        = (pre.map fun t => BuildEvent.waitReady t.name 5)
          ++ [BuildEvent.waitReady name 5] := by
  obtain ⟨hb1, htr1⟩ :=
    build_fail_at pre rest ⟨name, .timeout, h1⟩
      (.TaskLaunch (timedOutMsg name)) hpre rfl
  obtain ⟨hb2, _⟩ :=
    build_fail_at pre rest ⟨name, .closed, h2⟩
      (.TaskLaunch (closedMsg name)) hpre rfl
  obtain ⟨hb3, _⟩ :=
    build_fail_at pre rest ⟨name, .value (.error e), h3⟩ e hpre rfl
  exact ⟨hb1, name_infix_timedOutMsg name, hb2, name_infix_closedMsg name,
    hb3, htr1⟩

/-- Witness for the amended C3: one ready stage before the failing stage
`x`, one stage after it that is never awaited. -/
theorem build_readiness_failure_cases_witness :
    (withTasks ([⟨"pre", .value (.ok ()), 0⟩]
        ++ ⟨"x", .timeout, 1⟩ :: [⟨"later", .timeout, 2⟩])).build
      = .error (.TaskLaunch (timedOutMsg "x"))
    ∧ (withTasks ([⟨"pre", .value (.ok ()), 0⟩]
        ++ ⟨"x", .value (.error (.TaskLaunch "boom")), 1⟩
          :: [⟨"later", .timeout, 2⟩])).build
      = .error (.TaskLaunch "boom")
    ∧ buildTrace (withTasks ([⟨"pre", .value (.ok ()), 0⟩]
        ++ ⟨"x", .timeout, 1⟩ :: [⟨"later", .timeout, 2⟩]))
      = [BuildEvent.waitReady "pre" 5, BuildEvent.waitReady "x" 5] := by
  have h := build_readiness_failure_cases [⟨"pre", .value (.ok ()), 0⟩]
    [⟨"later", .timeout, 2⟩] "x" 1 1 1 (.TaskLaunch "boom") (by decide)
  exact ⟨h.1, h.2.2.2.2.1, by simpa using h.2.2.2.2.2⟩

/-- Claim C8: `build` awaits the stages' Readiness Signals strictly in
registration order, each with the fixed 5-second timeout bound: the wait
events of the build trace are exactly the readiness-loop trace, which is a
prefix of the registration-order list of 5-second waits, and is the whole
list whenever the loop succeeds. -/
theorem build_awaits_in_order (b : PipelineBuilder) :
    (buildTrace b).filter BuildEvent.isWait = buildLoopTrace b.tasks
    ∧ buildLoopTrace b.tasks
        <+: b.tasks.map (fun t => BuildEvent.waitReady t.name 5)
    ∧ ((buildLoop b.tasks).isOk = true →
        buildLoopTrace b.tasks
          = b.tasks.map fun t => BuildEvent.waitReady t.name 5) := by
  refine ⟨?_, buildLoopTrace_isPre b.tasks, buildLoop_isOk_trace b.tasks⟩
  have hwait : ∀ e ∈ buildLoopTrace b.tasks, BuildEvent.isWait e = true := by
    intro e he
    have hm := (buildLoopTrace_isPre b.tasks).subset he
    obtain ⟨t, _, rfl⟩ := List.mem_map.mp hm
    rfl
  by_cases hE : b.tasks.isEmpty = true
  · have : b.tasks = [] := by simpa [List.isEmpty_iff] using hE
    simp [buildTrace, buildLoopTrace, this]
  · rw [buildTrace, if_neg (by simp [hE])]
    rw [List.filter_append, List.filter_eq_self.mpr hwait]
    by_cases hOk : (buildLoop b.tasks).isOk = true <;>
      simp [hOk, BuildEvent.isWait]

/-- Witness for C8: on the two-stage sample builder, both stages are
awaited, in registration order, with the 5-second bound. -/
theorem build_awaits_in_order_witness :
    buildLoopTrace sampleOk.tasks
      = [BuildEvent.waitReady "alpha" 5, BuildEvent.waitReady "beta" 5] := by
  have h := build_awaits_in_order sampleOk
  simpa using h.2.2 (by decide)

/-- The builder state after registering one stage named `a` through
`spawn_task` directly, starting from a fresh builder. -/
def afterSpawnTask : PipelineBuilder :=
  { control := [], tasks := [⟨"a", .value (.ok ()), 0⟩] }

/-- Claim C9 counterexample: `spawn_task` registers a stage without
creating any control listener — after `spawn_task "a"` on a fresh builder,
`a` is in the task registry but the Control Broadcast holds zero listeners
under `a`, not exactly one. -/
theorem spawn_task_adds_no_listener :
    PipelineBuilder.new.spawn_task "a" (.value (.ok ())) 0
        = .ok afterSpawnTask
    ∧ afterSpawnTask.hasTask "a" = true
    ∧ afterSpawnTask.control.count "a" = 0 := by decide

/-- Claim C9 (amended): for every builder reachable through the source
registration operations (`source`, `spawn_source`) — which call
`add_listener` atomically with the registration — every registered stage
has exactly one listener under its name; `spawn_task` alone registers a
stage without creating a listener. -/
theorem source_registered_unique_listener (b : PipelineBuilder)
    (hb : SourceReachable b) (name : String)
    (hreg : b.hasTask name = true) :
    b.control.count name = 1 := by
  obtain ⟨hc, hn⟩ := sourceReachable_control b hb
  rw [hc]
  exact List.count_eq_one_of_mem hn ((hasTask_eq_true_iff b name).mp hreg)

/-- The builder state after registering one stage named `a` through
`spawn_source`, starting from a fresh builder. -/
def afterSpawnSource : PipelineBuilder :=
  { control := ["a"], tasks := [⟨"a", .value (.ok ()), 0⟩] }

/-- Witness for the amended C9 at a builder reached by one `spawn_source`
registration. -/
theorem source_registered_unique_listener_witness :
    afterSpawnSource.control.count "a" = 1 :=
  source_registered_unique_listener afterSpawnSource
    (SourceReachable.spawn_source PipelineBuilder.new afterSpawnSource "a"
      (.value (.ok ())) 0 SourceReachable.new (by decide)) "a" (by decide)

/-- Claim C10: every successful `build` returns a pipeline whose
`is_shutdown` flag is false and whose `task_handles` map holds exactly one
thread handle per registered stage, keyed by stage name, in registration
order (for registries with unique names, the invariant the registration
operations enforce). -/
theorem build_pipeline_shape (b : PipelineBuilder) (out : BuildOk)
    (hb : b.build = .ok out) (hnd : (b.tasks.map Task.name).Nodup) :
    out.pipeline.is_shutdown = false
    ∧ out.pipeline.task_handles = b.tasks.map (fun t => (t.name, t.handle))
    ∧ out.pipeline.task_handles.map Prod.fst = b.tasks.map Task.name
    ∧ (out.pipeline.task_handles.map Prod.fst).Nodup := by
  obtain ⟨rfl, hOk, hne⟩ := build_ok_char b out hb
  have hkeys : (b.tasks.map fun t => (t.name, t.handle)).map Prod.fst
      = b.tasks.map Task.name := by
    simp [List.map_map]
  exact ⟨rfl, rfl, hkeys, hkeys ▸ hnd⟩

/-- Witness for C10 at the two-stage sample builder. -/
theorem build_pipeline_shape_witness :
    sampleOkOut.pipeline.is_shutdown = false
    ∧ sampleOkOut.pipeline.task_handles
        = sampleOk.tasks.map (fun t => (t.name, t.handle))
    ∧ sampleOkOut.pipeline.task_handles.map Prod.fst
        = sampleOk.tasks.map Task.name
    ∧ (sampleOkOut.pipeline.task_handles.map Prod.fst).Nodup :=
  build_pipeline_shape sampleOk sampleOkOut (by decide) (by decide)

/-- Claim C1: after a successful `build`, exactly one supervisor is
spawned, and it resolves the single-shot completion future from whichever
stage's completion signal resolves first: an explicit failure yields a
failure naming that stage and its reason, a channel closed without a value
yields a failure naming that stage with unknown reason, and an explicit
success yields success — with exactly one send, independent of the
eventual outcomes of all other stages. -/
theorem supervisor_first_signal_decides (b : PipelineBuilder) (out : BuildOk)
    (hb : b.build = .ok out) (signals signals2 : List DoneSignal) (i : Nat)
    (_hi : i < (taskNames out).length)
    (hagree : signals.getD i .closed = signals2.getD i .closed) :
    (buildTrace b).count .spawnSupervisor = 1
    ∧ (supervisorSends (taskNames out) signals i).length = 1
    ∧ supervisorSends (taskNames out) signals i
        = supervisorSends (taskNames out) signals2 i
    ∧ (∀ e, signals.getD i .closed = .value (.error e) →
        supervisorSends (taskNames out) signals i
          = [.error (taskFailedMsg ((taskNames out).getD i "") e)]
        ∧ ((taskNames out).getD i "").data
            <:+: (taskFailedMsg ((taskNames out).getD i "") e).data)
    ∧ (signals.getD i .closed = .closed →
        supervisorSends (taskNames out) signals i
          = [.error (taskUnknownMsg ((taskNames out).getD i ""))]
        ∧ ((taskNames out).getD i "").data
            <:+: (taskUnknownMsg ((taskNames out).getD i "")).data)
    ∧ (∀ u, signals.getD i .closed = .value (.ok u) →
        supervisorSends (taskNames out) signals i = [.ok ()]) := by
  obtain ⟨-, hOk, hne⟩ := build_ok_char b out hb
  refine ⟨?_, rfl, ?_, ?_, ?_, ?_⟩
  · rw [buildTrace, if_neg (by simp [List.isEmpty_iff, hne]), if_pos hOk,
      List.count_append]
    rw [List.count_eq_zero.mpr (supervisor_not_in_loopTrace b.tasks)]
    rfl
  · simp only [supervisorSends, hagree]
  · intro e he
    exact ⟨by simp only [supervisorSends, he, superviseFirst],
      name_infix_taskFailedMsg _ e⟩
  · intro he
    refine ⟨by simp only [supervisorSends, he, superviseFirst], ?_⟩
    exact ⟨("Task " ++ sq).data,
      (sq ++ " failed for unknown reason").data,
      by simp [taskUnknownMsg, List.append_assoc]⟩
  · intro u he
    simp only [supervisorSends, he, superviseFirst]

/-- Witness for C1 at the built two-stage sample pipeline, with stage
`alpha` resolving first by a closed completion channel while `beta`
eventually reports success. -/
theorem supervisor_first_signal_decides_witness :
    (buildTrace sampleOk).count .spawnSupervisor = 1
    ∧ supervisorSends (taskNames sampleOkOut)
        [DoneSignal.closed, DoneSignal.value (.ok ())] 0
      = [.error (taskUnknownMsg "alpha")] := by
  have h := supervisor_first_signal_decides sampleOk sampleOkOut (by decide)
    [DoneSignal.closed, DoneSignal.value (.ok ())]
    [DoneSignal.closed, DoneSignal.value (.error "later")] 0
    (by decide) rfl
  exact ⟨h.1, by simpa using (h.2.2.2.2.1 rfl).1⟩

/-- Claim C2: the stage-runner thread body reports exactly one terminal
outcome on the stage's completion channel — the stage's own result on a
normal return (success or explicit failure message), or a synthesized
message beginning `Panicked:` when the run logic panics — and no panic
escapes the thread body. -/
theorem stage_runner_reports_once (r : Except String Unit)
    (p : PanicPayload) :
    (∀ bh : LaunchBehavior,
      (runnerBody bh).sends.length = 1 ∧ (runnerBody bh).escaped = none)
    ∧ runnerBody (.returns r) = { sends := [r], escaped := none }
    ∧ runnerBody (.panics p)
        = { sends := [.error (panicMessage p)], escaped := none }
    ∧ ∃ rest, panicMessage p = "Panicked:" ++ rest := by
  refine ⟨fun bh => ⟨rfl, rfl⟩, rfl, rfl, ?_⟩
  cases p with
  | staticStr s =>
      refine ⟨" " ++ s, ?_⟩
      show "Panicked: " ++ s = "Panicked:" ++ (" " ++ s)
      rw [← String.append_assoc]
      congr 1
  | stringVal s =>
      refine ⟨" " ++ s, ?_⟩
      show "Panicked: " ++ s = "Panicked:" ++ (" " ++ s)
      rw [← String.append_assoc]
      congr 1
  | other => exact ⟨" Unknown error", by decide⟩

end Cap
